import Mathlib

/-! Verification of the Virtual-Host-Live-Stream decision core.

A shallow embedding of the control-plane code: the Brain decision engine
(src/core/brain/live_brain.py), the sale-flow state machine
(src/core/state_machine/sale_flow.py and states.py), the metrics collector
(src/core/observability/metrics.py) and the orchestrator auto-transition map
(src/services/orchestrator-service/main.py).  Clock values and Python floats
are modelled as exact rationals; Python int() truncation is modelled
explicitly by pyint.
-/

namespace LiveBrain

/-- Action enum of live_brain.py. -/
inductive Action where
  | SPEAK | SKIP | WAIT | QUEUE
deriving DecidableEq, Repr

/-- Reason enum of live_brain.py. -/
inductive Reason where
  | GREETING | PRICE_QUESTION | PRODUCT_QUESTION | HIGH_PRIORITY | SALE_CTA | ENGAGEMENT
  | SPAM | DUPLICATE | LOW_PRIORITY | COOLDOWN_ACTIVE
  | TOO_FAST | QUEUE_FULL | STATE_TRANSITION
deriving DecidableEq, Repr

/-- Output record of the Brain (live_brain.py Decision dataclass); the opaque
metadata dict is omitted.  Field defaults are the dataclass defaults. -/
structure Decision where
  action : Action
  reason : Reason
  cooldown : ℚ := 0.0
  priority : ℤ := 5
  confidence : ℚ := 1.0
deriving DecidableEq, Repr

/-- Input record for the Brain (live_brain.py BrainInput).  The wall-clock
timestamp field and the decide-computed time_since_last_speak field are
omitted: the clock is passed to decide explicitly. -/
structure BrainInput where
  comment_id : String
  username : String
  comment_text : String
  intent : String
  viewer_count : ℤ := 0
  sale_state : String := "IDLE"
  is_follower : Bool := false
  is_subscriber : Bool := false
  gift_value : ℚ := 0.0
deriving DecidableEq, Repr

/-- Numeric knobs of LiveBrain._default_config.  The intent-priority and
state-modifier tables of that dict are embedded as the functions
intent_priority and state_modifier below with their default contents. -/
structure BrainConfig where
  min_speak_interval : ℚ
  max_speak_interval : ℚ
  default_cooldown : ℚ
  high_priority_threshold : ℤ
  auto_speak_priority : ℤ
  max_queue_size : ℕ
  queue_timeout : ℚ
  duplicate_window : ℕ
  duplicate_similarity : ℚ
  viewer_low_threshold : ℤ
  viewer_low_multiplier : ℚ
  viewer_high_threshold : ℤ
  viewer_high_multiplier : ℚ
deriving DecidableEq, Repr

/-- Default configuration values of LiveBrain._default_config. -/
def default_config : BrainConfig :=
  { min_speak_interval := 3.0, max_speak_interval := 15.0, default_cooldown := 4.0,
    high_priority_threshold := 7, auto_speak_priority := 9,
    max_queue_size := 10, queue_timeout := 30.0,
    duplicate_window := 10, duplicate_similarity := 0.8,
    viewer_low_threshold := 50, viewer_low_multiplier := 1.2,
    viewer_high_threshold := 500, viewer_high_multiplier := 0.8 }

/-- The intent_priority table of _default_config, with the dict.get default 3
(live_brain.py line 249). -/
def intent_priority (intent : String) : ℤ :=
  if intent = "greeting" then 6
  else if intent = "price_question" then 9
  else if intent = "product_question" then 8
  else if intent = "purchase_intent" then 10
  else if intent = "thanks" then 5
  else if intent = "complaint" then 7
  else if intent = "request" then 6
  else if intent = "chitchat" then 4
  else if intent = "spam" then 1
  else if intent = "unknown" then 3
  else 3

/-- The state_modifiers table of _default_config, read as
state_modifiers.get(state, dict()).get(intent, 1.0). -/
def state_modifier (state intent : String) : ℚ :=
  if state = "IDLE" then
    (if intent = "greeting" then 1.5 else if intent = "chitchat" then 1.2 else 1.0)
  else if state = "WARM_UP" then (if intent = "product_question" then 1.3 else 1.0)
  else if state = "INTEREST" then (if intent = "price_question" then 1.5 else 1.0)
  else if state = "PRICE" then (if intent = "purchase_intent" then 2.0 else 1.0)
  else if state = "CTA" then (if intent = "purchase_intent" then 1.5 else 1.0)
  else 1.0

/-- Python int() applied to a float value: truncation toward zero. -/
def pyint (q : ℚ) : ℤ := if 0 ≤ q then ⌊q⌋ else ⌈q⌉

/-- Python str.lower() with the ASCII case mapping, written over the character
list so that it evaluates structurally. -/
def py_lower (s : String) : String := String.mk (s.data.map Char.toLower)

/-- Python str.strip(): drop whitespace at both ends. -/
def py_strip (s : String) : String :=
  String.mk (((s.data.dropWhile Char.isWhitespace).reverse.dropWhile Char.isWhitespace).reverse)

/-- Split a character list at every whitespace character, keeping empty
pieces. -/
def split_pieces (l : List Char) : List (List Char) :=
  l.foldr (fun c acc =>
    if c.isWhitespace then [] :: acc
    else match acc with
      | [] => [[c]]
      | t :: ts => (c :: t) :: ts) [[]]

/-- Python str.split() with no separator: the maximal non-whitespace runs. -/
def py_split (s : String) : List String :=
  ((split_pieces s.data).filter (fun t => t ≠ [])).map String.mk

/-- LiveBrain._similarity: exact-equality short circuit, then word-set
Jaccard overlap. -/
def similarity (a b : String) : ℚ :=
  if a = b then 1.0
  else
    let words_a := (py_split a).toFinset
    let words_b := (py_split b).toFinset
    if words_a = ∅ ∨ words_b = ∅ then 0.0
    else
      let overlap := (words_a ∩ words_b).card
      let total := (words_a ∪ words_b).card
      if 0 < total then (overlap : ℚ) / (total : ℚ) else 0.0

/-- LiveBrain._is_duplicate: some ring entry whose similarity against the
lowercased stripped text strictly exceeds the threshold. -/
def is_duplicate (cfg : BrainConfig) (recent : List String) (text : String) : Prop :=
  ∃ r ∈ recent, cfg.duplicate_similarity < similarity (py_strip (py_lower text)) r

instance (cfg : BrainConfig) (recent : List String) (text : String) :
    Decidable (is_duplicate cfg recent text) := by
  unfold is_duplicate; infer_instance

/-- Mutable state of a LiveBrain instance (config and callback fields aside).
Field defaults are the constructor values. -/
structure BrainState where
  last_speak_time : ℚ := 0.0
  speak_count : ℕ := 0
  recent_comments : List String := []
  queue : List BrainInput := []
deriving DecidableEq, Repr

/-- A freshly constructed LiveBrain state. -/
def init_state : BrainState := {}

/-- Viewer-count multiplier of LiveBrain._calculate_priority lines 257-263. -/
def viewer_multiplier (cfg : BrainConfig) (viewer_count : ℤ) : ℚ :=
  if viewer_count < cfg.viewer_low_threshold then cfg.viewer_low_multiplier
  else if cfg.viewer_high_threshold < viewer_count then cfg.viewer_high_multiplier
  else 1.0

/-- Follower/subscriber and gift bonus of LiveBrain._calculate_priority
lines 265-274. -/
def brain_bonus (inp : BrainInput) : ℤ :=
  (if inp.is_subscriber then 2 else if inp.is_follower then 1 else 0) +
  (if 0 < inp.gift_value then min 3 (pyint (inp.gift_value / 100)) else 0)

/-- LiveBrain._calculate_priority: base times state and viewer multipliers
plus bonus, int()-truncated, clamped to the range 1 to 10. -/
def calculate_priority (cfg : BrainConfig) (inp : BrainInput) : ℤ :=
  max 1 (min 10 (pyint ((intent_priority (py_lower inp.intent) : ℚ) *
    state_modifier inp.sale_state (py_lower inp.intent) *
    viewer_multiplier cfg inp.viewer_count + (brain_bonus inp : ℚ))))

/-- The intent_to_reason map of LiveBrain._create_speak_decision, with the
dict.get default HIGH_PRIORITY. -/
def intent_to_reason (intent : String) : Reason :=
  if intent = "greeting" then Reason.GREETING
  else if intent = "price_question" then Reason.PRICE_QUESTION
  else if intent = "product_question" then Reason.PRODUCT_QUESTION
  else if intent = "purchase_intent" then Reason.SALE_CTA
  else if intent = "thanks" then Reason.ENGAGEMENT
  else if intent = "chitchat" then Reason.ENGAGEMENT
  else Reason.HIGH_PRIORITY

/-- LiveBrain._create_speak_decision. -/
def create_speak_decision (cfg : BrainConfig) (inp : BrainInput) (priority : ℤ) : Decision :=
  { action := Action.SPEAK,
    reason := intent_to_reason (py_lower inp.intent),
    cooldown := max 2.0 (min 8.0 (cfg.default_cooldown * (1 - ((priority : ℚ) - 5) * 0.1))),
    priority := priority,
    confidence := 0.8 + (priority : ℚ) / 50 }

/-- LiveBrain._track_comment: append the normalized text, then keep the Python
slice [-window:].  A zero window leaves the whole list, because the Python
slice [-0:] is the full list. -/
def track_comment (cfg : BrainConfig) (st : BrainState) (text : String) : BrainState :=
  let rc := st.recent_comments ++ [py_strip (py_lower text)]
  { st with recent_comments :=
      if cfg.duplicate_window < rc.length then
        (if cfg.duplicate_window = 0 then rc else rc.drop (rc.length - cfg.duplicate_window))
      else rc }

/-- Steps 3 and 4 of LiveBrain.decide: calculated priority, lifted by the
starvation boost of lines 209-212. -/
def boosted_priority (cfg : BrainConfig) (time_since_speak : ℚ) (inp : BrainInput) : ℤ :=
  let priority := calculate_priority cfg inp
  if cfg.max_speak_interval < time_since_speak then max priority cfg.auto_speak_priority
  else priority

/-- LiveBrain.decide, with the clock value passed in place of time.time().
Returns the decision together with the updated brain state; the on_decision
callback is external observability. -/
def decide (cfg : BrainConfig) (st : BrainState) (now : ℚ) (inp : BrainInput) :
    Decision × BrainState :=
  let time_since_speak := now - st.last_speak_time
  if time_since_speak < cfg.min_speak_interval then
    ({ action := Action.WAIT, reason := Reason.TOO_FAST,
       cooldown := cfg.min_speak_interval - time_since_speak, priority := 0 }, st)
  else if is_duplicate cfg st.recent_comments inp.comment_text then
    ({ action := Action.SKIP, reason := Reason.DUPLICATE, priority := 0 }, st)
  else if inp.intent = "spam" then
    ({ action := Action.SKIP, reason := Reason.SPAM, priority := 0 }, st)
  else
    let priority := boosted_priority cfg time_since_speak inp
    let d :=
      if cfg.auto_speak_priority ≤ priority then create_speak_decision cfg inp priority
      else if cfg.high_priority_threshold ≤ priority then
        (if st.queue.length < cfg.max_queue_size then create_speak_decision cfg inp priority
         else { action := Action.QUEUE, reason := Reason.QUEUE_FULL, priority := priority })
      else { action := Action.SKIP, reason := Reason.LOW_PRIORITY, priority := priority }
    (d, track_comment cfg st inp.comment_text)

/-- LiveBrain.mark_spoken, with the clock value passed explicitly. -/
def mark_spoken (st : BrainState) (now : ℚ) : BrainState :=
  { st with last_speak_time := now, speak_count := st.speak_count + 1 }

/-- One externally invokable Brain operation. -/
inductive BrainOp where
  | decideOp (now : ℚ) (inp : BrainInput)
  | markSpokenOp (now : ℚ)

/-- State effect of one Brain operation. -/
def apply_op (cfg : BrainConfig) (st : BrainState) : BrainOp → BrainState
  | BrainOp.decideOp now inp => (decide cfg st now inp).2
  | BrainOp.markSpokenOp now => mark_spoken st now

/-- Run a sequence of Brain operations from a starting state. -/
def run_ops (cfg : BrainConfig) (st : BrainState) (ops : List BrainOp) : BrainState :=
  ops.foldl (apply_op cfg) st

/-- The orchestrator hot loop restricted to the Brain: each comment is decided
at its clock value, and a committed SPEAK is immediately followed by
mark_spoken at the same clock value.  Returns the clock values of the SPEAK
decisions in order. -/
def run_session (cfg : BrainConfig) : BrainState → List (ℚ × BrainInput) → List ℚ
  | _, [] => []
  | st, (now, inp) :: rest =>
    if (decide cfg st now inp).1.action = Action.SPEAK then
      now :: run_session cfg (mark_spoken (decide cfg st now inp).2 now) rest
    else run_session cfg (decide cfg st now inp).2 rest

end LiveBrain

namespace SaleFlow

/-- SaleState enum of states.py. -/
inductive SaleState where
  | IDLE | WARM_UP | INTEREST | PRICE | CTA | COOLDOWN | HANDLING_QUESTION | CRISIS
deriving DecidableEq, Repr, BEq

/-- StateConfig record of states.py; the priority_intents and target_metrics
lists are data that never feed the control flow and are omitted. -/
structure StateConfig where
  name : String
  min_duration : ℚ := 0.0
  max_duration : ℚ := 300.0
  response_style : String := "neutral"
deriving DecidableEq, Repr

/-- The STATE_CONFIGS table of states.py, total over the enum. -/
def STATE_CONFIGS : SaleState → StateConfig
  | SaleState.IDLE =>
    { name := "IDLE", min_duration := 0, max_duration := 60, response_style := "friendly" }
  | SaleState.WARM_UP =>
    { name := "WARM_UP", min_duration := 30, max_duration := 120, response_style := "enthusiastic" }
  | SaleState.INTEREST =>
    { name := "INTEREST", min_duration := 45, max_duration := 180, response_style := "informative" }
  | SaleState.PRICE =>
    { name := "PRICE", min_duration := 20, max_duration := 90, response_style := "value_focused" }
  | SaleState.CTA =>
    { name := "CTA", min_duration := 15, max_duration := 45, response_style := "urgent" }
  | SaleState.COOLDOWN =>
    { name := "COOLDOWN", min_duration := 60, max_duration := 120, response_style := "calm" }
  | SaleState.HANDLING_QUESTION =>
    { name := "HANDLING_QUESTION", min_duration := 0, max_duration := 60, response_style := "helpful" }
  | SaleState.CRISIS =>
    { name := "CRISIS", min_duration := 0, max_duration := 120, response_style := "empathetic" }

/-- TransitionRule of sale_flow.py.  Every rule in the default rule set has
condition None; an optional constant boolean models the optional guard. -/
structure TransitionRule where
  from_state : SaleState
  to_state : SaleState
  trigger : String
  condition : Option Bool := none
  priority : ℤ := 5
deriving DecidableEq, Repr

/-- Stable insertion into a list sorted by descending priority: the new rule
goes before the first element whose priority does not exceed it, so rules of
equal priority keep their original relative order. -/
def insert_by_priority (r : TransitionRule) : List TransitionRule → List TransitionRule
  | [] => [r]
  | x :: xs =>
    if x.priority ≤ r.priority then r :: x :: xs else x :: insert_by_priority r xs

/-- Stable sort by descending priority, matching the stable Python list.sort
with key = priority and reverse = True at sale_flow.py line 108. -/
def sort_by_priority (l : List TransitionRule) : List TransitionRule :=
  l.foldr insert_by_priority []

/-- The rule list of SaleStateMachine._build_default_rules in source order,
then sorted by descending priority as the source does. -/
def build_default_rules : List TransitionRule :=
  sort_by_priority [
    { from_state := SaleState.IDLE, to_state := SaleState.WARM_UP, trigger := "start_warmup" },
    { from_state := SaleState.IDLE, to_state := SaleState.WARM_UP, trigger := "greeting_received" },
    { from_state := SaleState.IDLE, to_state := SaleState.WARM_UP, trigger := "timeout" },
    { from_state := SaleState.WARM_UP, to_state := SaleState.INTEREST, trigger := "product_mention" },
    { from_state := SaleState.WARM_UP, to_state := SaleState.INTEREST, trigger := "product_question" },
    { from_state := SaleState.WARM_UP, to_state := SaleState.INTEREST, trigger := "timeout" },
    { from_state := SaleState.INTEREST, to_state := SaleState.PRICE, trigger := "price_question" },
    { from_state := SaleState.INTEREST, to_state := SaleState.PRICE, trigger := "reveal_price" },
    { from_state := SaleState.INTEREST, to_state := SaleState.PRICE, trigger := "timeout" },
    { from_state := SaleState.PRICE, to_state := SaleState.CTA, trigger := "start_cta" },
    { from_state := SaleState.PRICE, to_state := SaleState.CTA, trigger := "purchase_intent" },
    { from_state := SaleState.PRICE, to_state := SaleState.CTA, trigger := "timeout" },
    { from_state := SaleState.CTA, to_state := SaleState.COOLDOWN, trigger := "cta_complete" },
    { from_state := SaleState.CTA, to_state := SaleState.COOLDOWN, trigger := "timeout" },
    { from_state := SaleState.COOLDOWN, to_state := SaleState.IDLE, trigger := "cooldown_complete" },
    { from_state := SaleState.COOLDOWN, to_state := SaleState.IDLE, trigger := "timeout" },
    { from_state := SaleState.COOLDOWN, to_state := SaleState.WARM_UP, trigger := "restart_flow" },
    { from_state := SaleState.WARM_UP, to_state := SaleState.HANDLING_QUESTION,
      trigger := "question_received", priority := 8 },
    { from_state := SaleState.INTEREST, to_state := SaleState.HANDLING_QUESTION,
      trigger := "question_received", priority := 8 },
    { from_state := SaleState.PRICE, to_state := SaleState.HANDLING_QUESTION,
      trigger := "question_received", priority := 8 },
    { from_state := SaleState.WARM_UP, to_state := SaleState.CRISIS,
      trigger := "complaint_received", priority := 9 },
    { from_state := SaleState.INTEREST, to_state := SaleState.CRISIS,
      trigger := "complaint_received", priority := 9 },
    { from_state := SaleState.PRICE, to_state := SaleState.CRISIS,
      trigger := "complaint_received", priority := 9 },
    { from_state := SaleState.CTA, to_state := SaleState.CRISIS,
      trigger := "complaint_received", priority := 9 },
    { from_state := SaleState.HANDLING_QUESTION, to_state := SaleState.INTEREST,
      trigger := "question_answered" },
    { from_state := SaleState.CRISIS, to_state := SaleState.COOLDOWN,
      trigger := "crisis_resolved" }
  ]

/-- Control state of SaleStateMachine.  The snapshot history, per-state
metrics dict and viewer counters are bookkeeping that never feeds back into
transition decisions and are omitted. -/
structure SMState where
  current_state : SaleState := SaleState.IDLE
  state_entered_at : ℚ
  previous_state : Option SaleState := none
  transition_count : ℕ := 0
deriving DecidableEq, Repr

/-- The state_duration property, with the clock value passed explicitly. -/
def state_duration (sm : SMState) (now : ℚ) : ℚ := now - sm.state_entered_at

/-- The state_config property: STATE_CONFIGS.get of the current state (the
table is total, so the UNKNOWN default never applies). -/
def state_config (sm : SMState) : StateConfig := STATE_CONFIGS sm.current_state

/-- The rule-scanning loop of SaleStateMachine.transition lines 153-157: the
first rule matching the current state and trigger whose guard passes (or is
absent, or force is set). -/
def find_rule (cur : SaleState) (trigger : String) (force : Bool) : Option TransitionRule :=
  build_default_rules.find? (fun r =>
    r.from_state == cur && r.trigger == trigger &&
      (force || (match r.condition with | none => true | some b => b)))

/-- SaleStateMachine._execute_transition on the control fields. -/
def execute_transition (sm : SMState) (now : ℚ) (new_state : SaleState) : SMState :=
  { current_state := new_state,
    state_entered_at := now,
    previous_state := some sm.current_state,
    transition_count := sm.transition_count + 1 }

/-- SaleStateMachine.transition, with the clock value passed explicitly.
Returns the success flag together with the updated machine. -/
def transition (sm : SMState) (now : ℚ) (trigger : String) (force : Bool) :
    Bool × SMState :=
  match find_rule sm.current_state trigger force with
  | none => (false, sm)
  | some r =>
    if force = false ∧ state_duration sm now < (state_config sm).min_duration then
      (false, sm)
    else (true, execute_transition sm now r.to_state)

/-- SaleStateMachine.check_timeout, with the clock value passed explicitly. -/
def check_timeout (sm : SMState) (now : ℚ) : Bool × SMState :=
  if (state_config sm).max_duration ≤ state_duration sm now then
    transition sm now "timeout" false
  else (false, sm)

/-- The intent_triggers map of OrchestratorService._auto_transition. -/
def intent_triggers (intent : String) : Option String :=
  if intent = "greeting" then some "greeting_received"
  else if intent = "product_question" then some "product_mention"
  else if intent = "price_question" then some "price_question"
  else if intent = "purchase_intent" then some "purchase_intent"
  else if intent = "complaint" then some "complaint_received"
  else none

/-- OrchestratorService._auto_transition: after a SPEAK on a mapped intent,
attempt a non-forced transition with the mapped trigger. -/
def auto_transition (sm : SMState) (now : ℚ) (intent : String) : SMState :=
  match intent_triggers intent with
  | some trig => (transition sm now trig false).2
  | none => sm

end SaleFlow

namespace Metrics

/-- CommentEvent dataclass of metrics.py. -/
structure CommentEvent where
  timestamp : ℚ
  username : String
  text : String
  intent : String
  was_responded : Bool := false
  response_time : ℚ := 0.0
deriving DecidableEq, Repr

/-- The real-time counters dict of MetricsCollector. -/
structure Counters where
  total_speaks : ℕ := 0
  total_comments : ℕ := 0
  responded_comments : ℕ := 0
  sale_phrases : ℕ := 0
deriving DecidableEq, Repr

/-- MetricsCollector.log_comment: create the comment event handle and bump
total_comments. -/
def log_comment (cnt : Counters) (now : ℚ) (username text intent : String) :
    CommentEvent × Counters :=
  ({ timestamp := now, username := username, text := text, intent := intent },
   { cnt with total_comments := cnt.total_comments + 1 })

/-- MetricsCollector.log_response: set the was_responded flag and response
time on the handle, and bump the responded_comments counter unconditionally
(metrics.py lines 205-212). -/
def log_response (ev : CommentEvent) (cnt : Counters) (response_time : ℚ) :
    CommentEvent × Counters :=
  ({ ev with was_responded := true, response_time := response_time },
   { cnt with responded_comments := cnt.responded_comments + 1 })

end Metrics

namespace LiveBrain

/-- Modelled from the spec (section 4.D step 4): the bonus term of the
priority formula, with the gift part written unconditionally as
min(3, floor(gift_value/100)). -/
def spec_bonus (inp : BrainInput) : ℤ :=
  (if inp.is_subscriber then 2 else if inp.is_follower then 1 else 0) +
  min 3 ⌊inp.gift_value / 100⌋

/-- Modelled from the spec (section 4.D step 4): priority =
clamp(1, 10, floor(base times state multiplier times viewer multiplier plus
bonus)). -/
def spec_priority (cfg : BrainConfig) (inp : BrainInput) : ℤ :=
  max 1 (min 10 ⌊(intent_priority (py_lower inp.intent) : ℚ) *
    state_modifier inp.sale_state (py_lower inp.intent) *
    viewer_multiplier cfg inp.viewer_count + (spec_bonus inp : ℚ)⌋)

/-- Brain state four seconds after a speak, for the cooldown scenario. -/
def c1_state : BrainState := { last_speak_time := 4 }

/-- A greeting comment. -/
def c1_input : BrainInput :=
  { comment_id := "c1", username := "ann", comment_text := "hi", intent := "greeting" }

/-- Brain state whose duplicate ring holds the text hello. -/
def c2_state : BrainState := { recent_comments := ["hello"] }

/-- A spam comment whose text repeats the ring entry. -/
def c2_input : BrainInput :=
  { comment_id := "c2", username := "bob", comment_text := "hello", intent := "spam",
    viewer_count := 100 }

/-- A spam comment with fresh text. -/
def c2w_input : BrainInput :=
  { comment_id := "c2w", username := "bea", comment_text := "gia bao nhieu", intent := "spam" }

/-- Brain state whose duplicate ring holds a five-word entry. -/
def c3_state : BrainState := { recent_comments := ["a b c d e"] }

/-- A four-word comment at Jaccard similarity exactly 0.8 to the ring entry. -/
def c3_input : BrainInput :=
  { comment_id := "c3", username := "cam", comment_text := "a b c d", intent := "chitchat",
    viewer_count := 100 }

/-- Brain state whose duplicate ring holds the text hello. -/
def c3w_state : BrainState := { recent_comments := ["hello"] }

/-- A greeting comment whose text repeats the ring entry exactly. -/
def c3w_input : BrainInput :=
  { comment_id := "c3w", username := "kim", comment_text := "hello", intent := "greeting" }

/-- Brain state whose duplicate ring holds the text hello. -/
def c4_state : BrainState := { recent_comments := ["hello"] }

/-- A non-spam comment whose text repeats the ring entry. -/
def c4_input : BrainInput :=
  { comment_id := "c4", username := "dot", comment_text := "hello", intent := "greeting",
    viewer_count := 100 }

/-- A fresh chat comment. -/
def c4w_input : BrainInput :=
  { comment_id := "c4w", username := "eli", comment_text := "hom nay", intent := "chitchat",
    viewer_count := 100 }

/-- A purchase-intent comment from a subscriber with a large gift, in the
PRICE phase. -/
def c7_input : BrainInput :=
  { comment_id := "c7", username := "fay", comment_text := "mua ngay",
    intent := "purchase_intent", viewer_count := 100, sale_state := "PRICE",
    is_subscriber := true, gift_value := 1000 }

/-- A greeting comment for the ring-bound witness. -/
def c9_input : BrainInput :=
  { comment_id := "c9", username := "gus", comment_text := "hi hi", intent := "greeting" }

/-- A price question at neutral viewer count. -/
def c10_input : BrainInput :=
  { comment_id := "c10", username := "hal", comment_text := "gia", intent := "price_question",
    viewer_count := 100 }

end LiveBrain

namespace SaleFlow

/-- The initial machine of scenario S4, in IDLE since time 0. -/
def s4_start : SMState := { current_state := SaleState.IDLE, state_entered_at := 0 }

/-- The machine after the greeting transition of S4. -/
def s4_warm : SMState :=
  { current_state := SaleState.WARM_UP, state_entered_at := 0,
    previous_state := some SaleState.IDLE, transition_count := 1 }

/-- The machine after the product-question transition of S4. -/
def s4_interest : SMState :=
  { current_state := SaleState.INTEREST, state_entered_at := 35,
    previous_state := some SaleState.WARM_UP, transition_count := 2 }

/-- The stuck machine of the check_timeout counterexample. -/
def c5_stuck : SMState := { current_state := SaleState.HANDLING_QUESTION, state_entered_at := 0 }

/-- A machine in IDLE since time 0, for the check_timeout witness. -/
def c5w_sm : SMState := { current_state := SaleState.IDLE, state_entered_at := 0 }

end SaleFlow

namespace LiveBrain

theorem pyint_of_nonneg (q : ℚ) (h : 0 ≤ q) : pyint q = ⌊q⌋ := by
  unfold pyint; rw [if_pos h]

theorem pyint_nonneg (q : ℚ) (h : 0 ≤ q) : 0 ≤ pyint q := by
  rw [pyint_of_nonneg q h]; exact Int.floor_nonneg.mpr h

theorem one_le_intent_priority (s : String) : 1 ≤ intent_priority s := by
  unfold intent_priority; split_ifs <;> norm_num

theorem one_le_state_modifier (s t : String) : 1 ≤ state_modifier s t := by
  unfold state_modifier; split_ifs <;> norm_num

theorem viewer_multiplier_default_pos (v : ℤ) :
    0 < viewer_multiplier default_config v := by
  unfold viewer_multiplier default_config; split_ifs <;> norm_num

theorem brain_bonus_eq_spec (inp : BrainInput) (hg : 0 ≤ inp.gift_value) :
    brain_bonus inp = spec_bonus inp := by
  unfold brain_bonus spec_bonus
  congr 1
  by_cases h : 0 < inp.gift_value
  · rw [if_pos h, pyint_of_nonneg _ (div_nonneg hg (by norm_num))]
  · have h0 : inp.gift_value = 0 := le_antisymm (not_lt.mp h) hg
    rw [if_neg h, h0]
    norm_num

theorem brain_bonus_nonneg (inp : BrainInput) (hg : 0 ≤ inp.gift_value) :
    0 ≤ brain_bonus inp := by
  unfold brain_bonus
  have h1 : (0:ℤ) ≤ if inp.is_subscriber then 2 else if inp.is_follower then 1 else 0 := by
    split_ifs <;> norm_num
  have h2 : (0:ℤ) ≤ if 0 < inp.gift_value then min 3 (pyint (inp.gift_value / 100)) else 0 := by
    split_ifs with h
    · exact le_min (by norm_num) (pyint_nonneg _ (div_nonneg hg (by norm_num)))
    · exact le_refl 0
  exact add_nonneg h1 h2

theorem decide_preserves_last (cfg : BrainConfig) (st : BrainState) (now : ℚ)
    (inp : BrainInput) : (decide cfg st now inp).2.last_speak_time = st.last_speak_time := by
  simp only [decide]
  split_ifs <;> rfl

theorem decide_speak_needs_interval (cfg : BrainConfig) (st : BrainState) (now : ℚ)
    (inp : BrainInput) (h : (decide cfg st now inp).1.action = Action.SPEAK) :
    cfg.min_speak_interval ≤ now - st.last_speak_time := by
  by_cases hc : now - st.last_speak_time < cfg.min_speak_interval
  · exfalso
    simp only [decide, if_pos hc] at h
    exact Action.noConfusion h
  · exact le_of_not_lt hc

theorem run_session_head (cfg : BrainConfig) (ops : List (ℚ × BrainInput)) :
    ∀ (st : BrainState) (t : ℚ), (run_session cfg st ops).head? = some t →
      cfg.min_speak_interval ≤ t - st.last_speak_time := by
  induction ops with
  | nil => intro st t h; simp [run_session] at h
  | cons p rest ih =>
    intro st t h
    obtain ⟨now, inp⟩ := p
    by_cases hs : (decide cfg st now inp).1.action = Action.SPEAK
    · rw [run_session, if_pos hs] at h
      simp only [List.head?_cons, Option.some_inj] at h
      subst h
      exact decide_speak_needs_interval cfg st now inp hs
    · rw [run_session, if_neg hs] at h
      have := ih (decide cfg st now inp).2 t h
      rwa [decide_preserves_last] at this

theorem run_session_chain (cfg : BrainConfig) (ops : List (ℚ × BrainInput)) :
    ∀ st : BrainState,
      List.Chain' (fun t1 t2 => cfg.min_speak_interval ≤ t2 - t1) (run_session cfg st ops) := by
  induction ops with
  | nil => intro st; simp [run_session]
  | cons p rest ih =>
    intro st
    obtain ⟨now, inp⟩ := p
    by_cases hs : (decide cfg st now inp).1.action = Action.SPEAK
    · rw [run_session, if_pos hs]
      rw [List.chain'_cons']
      refine ⟨?_, ih _⟩
      intro y hy
      have := run_session_head cfg rest (mark_spoken (decide cfg st now inp).2 now) y
        (by simpa using hy)
      simpa [mark_spoken] using this
    · rw [run_session, if_neg hs]
      exact ih _

theorem dup_hello_ring : is_duplicate default_config ["hello"] "hello" := by
  refine ⟨"hello", by simp, ?_⟩
  rw [show py_strip (py_lower "hello") = "hello" from by decide]
  simp only [similarity, if_pos rfl]
  norm_num [default_config]

theorem track_comment_length_le (cfg : BrainConfig) (st : BrainState) (t : String)
    (hw : 0 < cfg.duplicate_window)
    (hlen : st.recent_comments.length ≤ cfg.duplicate_window) :
    (track_comment cfg st t).recent_comments.length ≤ cfg.duplicate_window := by
  simp only [track_comment]
  split_ifs with h1 h2
  · omega
  · simp only [List.length_drop]
    omega
  · simpa using le_of_not_lt h1

theorem track_comment_evicts (cfg : BrainConfig) (st : BrainState) (t : String)
    (hw : 0 < cfg.duplicate_window)
    (hfull : st.recent_comments.length = cfg.duplicate_window) :
    (track_comment cfg st t).recent_comments =
      st.recent_comments.tail ++ [py_strip (py_lower t)] := by
  simp only [track_comment]
  have hlen : (st.recent_comments ++ [py_strip (py_lower t)]).length =
      cfg.duplicate_window + 1 := by simp [hfull]
  rw [if_pos (by omega), if_neg (by omega), hlen]
  have h1 : cfg.duplicate_window + 1 - cfg.duplicate_window = 1 := by omega
  rw [h1, List.drop_append_of_le_length (by omega), List.drop_one]

theorem decide_ring_le (cfg : BrainConfig) (st : BrainState) (now : ℚ)
    (inp : BrainInput) (hw : 0 < cfg.duplicate_window)
    (hlen : st.recent_comments.length ≤ cfg.duplicate_window) :
    (decide cfg st now inp).2.recent_comments.length ≤ cfg.duplicate_window := by
  simp only [decide]
  split_ifs <;> first
    | exact hlen
    | exact track_comment_length_le cfg st _ hw hlen

theorem apply_op_ring_le (cfg : BrainConfig) (st : BrainState) (op : BrainOp)
    (hw : 0 < cfg.duplicate_window)
    (hlen : st.recent_comments.length ≤ cfg.duplicate_window) :
    (apply_op cfg st op).recent_comments.length ≤ cfg.duplicate_window := by
  cases op with
  | decideOp now inp => exact decide_ring_le cfg st now inp hw hlen
  | markSpokenOp now => exact hlen

theorem run_ops_ring_le_aux (cfg : BrainConfig) (ops : List BrainOp)
    (hw : 0 < cfg.duplicate_window) :
    ∀ st : BrainState, st.recent_comments.length ≤ cfg.duplicate_window →
      (run_ops cfg st ops).recent_comments.length ≤ cfg.duplicate_window := by
  induction ops with
  | nil => intro st h; exact h
  | cons op rest ih =>
    intro st h
    exact ih (apply_op cfg st op) (apply_op_ring_le cfg st op hw h)

theorem apply_op_queue (cfg : BrainConfig) (st : BrainState) (op : BrainOp) :
    (apply_op cfg st op).queue = st.queue := by
  cases op with
  | decideOp now inp =>
    simp only [apply_op, decide]
    split_ifs <;> rfl
  | markSpokenOp now => rfl

theorem run_ops_queue (cfg : BrainConfig) (ops : List BrainOp) :
    ∀ st : BrainState, (run_ops cfg st ops).queue = st.queue := by
  induction ops with
  | nil => intro st; rfl
  | cons op rest ih =>
    intro st
    exact (ih (apply_op cfg st op)).trans (apply_op_queue cfg st op)

theorem decide_no_queue (cfg : BrainConfig) (st : BrainState) (now : ℚ) (inp : BrainInput)
    (hq : st.queue = []) (hmax : 0 < cfg.max_queue_size) :
    (decide cfg st now inp).1.action ≠ Action.QUEUE := by
  simp only [decide]
  split_ifs with h1 h2 h3 h4 h5 h6
  · exact fun hcon => Action.noConfusion hcon
  · exact fun hcon => Action.noConfusion hcon
  · exact fun hcon => Action.noConfusion hcon
  · exact fun hcon => Action.noConfusion hcon
  · exact fun hcon => Action.noConfusion hcon
  · exfalso
    rw [hq] at h6
    exact h6 (by simpa using hmax)
  · exact fun hcon => Action.noConfusion hcon

theorem decide_speaks_of_high (cfg : BrainConfig) (st : BrainState) (now : ℚ)
    (inp : BrainInput) (hq : st.queue = []) (hmax : 0 < cfg.max_queue_size)
    (hcd : ¬ (now - st.last_speak_time < cfg.min_speak_interval))
    (hdup : ¬ is_duplicate cfg st.recent_comments inp.comment_text)
    (hspam : inp.intent ≠ "spam")
    (hpri : cfg.high_priority_threshold ≤
      boosted_priority cfg (now - st.last_speak_time) inp) :
    (decide cfg st now inp).1.action = Action.SPEAK := by
  simp only [decide, if_neg hcd, if_neg hdup, if_neg hspam]
  by_cases hauto : cfg.auto_speak_priority ≤ boosted_priority cfg (now - st.last_speak_time) inp
  · rw [if_pos hauto]; rfl
  · rw [if_neg hauto, if_pos hpri, if_pos (by rw [hq]; simpa using hmax)]; rfl

end LiveBrain

namespace LiveBrain

/-- C1: when now minus last_speak_time is below min_speak_interval, decide
returns WAIT with reason TOO_FAST, cooldown equal to the remaining interval
and priority 0; consequently, along any session in which mark_spoken follows
each committed SPEAK at its clock value, two consecutive SPEAK decisions are
at least min_speak_interval apart. -/
theorem cooldown_gate_and_speak_spacing (cfg : BrainConfig) (st st0 : BrainState)
    (now : ℚ) (inp : BrainInput) (ops : List (ℚ × BrainInput)) :
    (now - st.last_speak_time < cfg.min_speak_interval →
      (decide cfg st now inp).1 =
        { action := Action.WAIT, reason := Reason.TOO_FAST,
          cooldown := cfg.min_speak_interval - (now - st.last_speak_time),
          priority := 0 }) ∧
    List.Chain' (fun t1 t2 => cfg.min_speak_interval ≤ t2 - t1)
      (run_session cfg st0 ops) := by
  constructor
  · intro h
    simp only [decide, if_pos h]
  · exact run_session_chain cfg ops st0

/-- Witness for C1: four seconds after a speak, a comment at time 5 is one
second into the three-second cooldown, and decide waits for the remaining
two seconds. -/
theorem cooldown_gate_and_speak_spacing_witness :
    ((5:ℚ) - c1_state.last_speak_time < default_config.min_speak_interval) ∧
    (decide default_config c1_state 5 c1_input).1 =
      { action := Action.WAIT, reason := Reason.TOO_FAST,
        cooldown := default_config.min_speak_interval - ((5:ℚ) - c1_state.last_speak_time),
        priority := 0 } := by
  have h : (5:ℚ) - c1_state.last_speak_time < default_config.min_speak_interval := by
    norm_num [c1_state, default_config]
  exact ⟨h, (cooldown_gate_and_speak_spacing default_config c1_state init_state
    5 c1_input []).1 h⟩

/-- Counterexample to C2 as stated: a spam comment that passes the cooldown
gate but duplicates a ring entry is reported as SKIP with reason DUPLICATE,
not SPAM, because the code checks the duplicate gate before the spam gate. -/
theorem duplicate_spam_reported_as_duplicate :
    c2_input.intent = "spam" ∧
    ¬ ((10:ℚ) - c2_state.last_speak_time < default_config.min_speak_interval) ∧
    (decide default_config c2_state 10 c2_input).1 =
      { action := Action.SKIP, reason := Reason.DUPLICATE, priority := 0 } ∧
    (decide default_config c2_state 10 c2_input).1.reason ≠ Reason.SPAM := by
  have hdup : is_duplicate default_config c2_state.recent_comments c2_input.comment_text :=
    dup_hello_ring
  have hev : (decide default_config c2_state 10 c2_input).1 =
      { action := Action.SKIP, reason := Reason.DUPLICATE, priority := 0 } := by
    simp only [decide]
    rw [if_neg (by norm_num [c2_state, default_config]), if_pos hdup]
  refine ⟨rfl, by norm_num [c2_state, default_config], hev, ?_⟩
  rw [hev]
  exact fun hcon => Reason.noConfusion hcon

/-- C2 amended: a spam comment that passes the cooldown gate and is not a
duplicate of the recent ring is skipped with reason SPAM (the code runs the
duplicate gate first); and the Brain never answers SPEAK to a comment whose
intent is spam. -/
theorem spam_gate_behind_duplicate_gate (cfg : BrainConfig) (st : BrainState)
    (now : ℚ) (inp : BrainInput) (hspam : inp.intent = "spam") :
    ((¬ (now - st.last_speak_time < cfg.min_speak_interval)) →
      ¬ is_duplicate cfg st.recent_comments inp.comment_text →
      (decide cfg st now inp).1 =
        { action := Action.SKIP, reason := Reason.SPAM, priority := 0 }) ∧
    (decide cfg st now inp).1.action ≠ Action.SPEAK := by
  constructor
  · intro hcd hdup
    simp only [decide, if_neg hcd, if_neg hdup, if_pos hspam]
  · simp only [decide]
    split_ifs with h1 h2
    · exact fun hcon => Action.noConfusion hcon
    · exact fun hcon => Action.noConfusion hcon
    · exact fun hcon => Action.noConfusion hcon

/-- Witness for C2 amended: a fresh spam comment at time 10 is skipped with
reason SPAM. -/
theorem spam_gate_behind_duplicate_gate_witness :
    c2w_input.intent = "spam" ∧
    ¬ ((10:ℚ) - init_state.last_speak_time < default_config.min_speak_interval) ∧
    ¬ is_duplicate default_config init_state.recent_comments c2w_input.comment_text ∧
    (decide default_config init_state 10 c2w_input).1 =
      { action := Action.SKIP, reason := Reason.SPAM, priority := 0 } := by
  have h0 : c2w_input.intent = "spam" := rfl
  have h1 : ¬ ((10:ℚ) - init_state.last_speak_time < default_config.min_speak_interval) := by
    norm_num [init_state, default_config]
  have h2 : ¬ is_duplicate default_config init_state.recent_comments c2w_input.comment_text := by
    simp [is_duplicate, init_state]
  exact ⟨h0, h1, h2,
    (spam_gate_behind_duplicate_gate default_config init_state 10 c2w_input h0).1 h1 h2⟩

/-- Counterexample to C3 as stated: a comment whose word-Jaccard similarity
to a ring entry is exactly the 0.8 threshold is not flagged DUPLICATE,
because the code compares with strict greater-than. -/
theorem jaccard_at_threshold_not_flagged :
    ¬ ((10:ℚ) - c3_state.last_speak_time < default_config.min_speak_interval) ∧
    default_config.duplicate_similarity ≤
      similarity (py_strip (py_lower c3_input.comment_text)) "a b c d e" ∧
    (decide default_config c3_state 10 c3_input).1.reason ≠ Reason.DUPLICATE := by
  have hnorm : py_strip (py_lower "a b c d") = "a b c d" := by decide
  have hA : ((py_split "a b c d").toFinset ∩ (py_split "a b c d e").toFinset).card = 4 := by
    decide
  have hU : ((py_split "a b c d").toFinset ∪ (py_split "a b c d e").toFinset).card = 5 := by
    decide
  have hsim : similarity "a b c d" "a b c d e" = 0.8 := by
    simp only [similarity]
    rw [if_neg (by decide), if_neg (by decide), if_pos (by rw [hU]; norm_num), hA, hU]
    norm_num
  have hndup : ¬ is_duplicate default_config c3_state.recent_comments c3_input.comment_text := by
    intro hd
    obtain ⟨r, hr, hlt⟩ := hd
    simp only [c3_state, List.mem_singleton] at hr
    subst hr
    rw [show c3_input.comment_text = "a b c d" from rfl, hnorm, hsim] at hlt
    norm_num [default_config] at hlt
  have hpri : calculate_priority default_config c3_input = 4 := by
    have h1 : py_lower "chitchat" = "chitchat" := by decide
    have h2 : brain_bonus c3_input = 0 := by norm_num [brain_bonus, c3_input]
    have hip : intent_priority "chitchat" = 4 := by decide
    have hsm : state_modifier "IDLE" "chitchat" = 1.2 := by
      unfold state_modifier
      rw [if_pos rfl, if_neg (by decide), if_pos rfl]
    have hvm : viewer_multiplier default_config 100 = 1.0 := by
      unfold viewer_multiplier
      rw [if_neg (by decide), if_neg (by decide)]
    unfold calculate_priority
    rw [show c3_input.intent = "chitchat" from rfl,
      show c3_input.sale_state = "IDLE" from rfl,
      show c3_input.viewer_count = (100:ℤ) from rfl, h1, h2, hip, hsm, hvm,
      pyint_of_nonneg _ (by norm_num)]
    norm_num
  have hb : boosted_priority default_config ((10:ℚ) - c3_state.last_speak_time) c3_input = 4 := by
    simp only [boosted_priority, hpri]
    rw [if_neg (by norm_num [default_config, c3_state])]
  refine ⟨by norm_num [c3_state, default_config], ?_, ?_⟩
  · rw [show c3_input.comment_text = "a b c d" from rfl, hnorm, hsim]
    norm_num [default_config]
  · simp only [decide]
    rw [if_neg (by norm_num [c3_state, default_config]), if_neg hndup,
      if_neg (show ¬ (c3_input.intent = "spam") from by decide), hb,
      if_neg (by norm_num [default_config]), if_neg (by norm_num [default_config])]
    exact fun hcon => Reason.noConfusion hcon

/-- C3 amended: a comment that passes the cooldown gate and whose similarity
to some ring entry strictly exceeds duplicate_similarity is skipped with
reason DUPLICATE. -/
theorem duplicate_gate_strict (cfg : BrainConfig) (st : BrainState) (now : ℚ)
    (inp : BrainInput)
    (hcd : ¬ (now - st.last_speak_time < cfg.min_speak_interval))
    (hdup : is_duplicate cfg st.recent_comments inp.comment_text) :
    (decide cfg st now inp).1 =
      { action := Action.SKIP, reason := Reason.DUPLICATE, priority := 0 } := by
  simp only [decide, if_neg hcd, if_pos hdup]

/-- Witness for C3 amended: an exact repetition of a ring entry is skipped as
DUPLICATE. -/
theorem duplicate_gate_strict_witness :
    ¬ ((10:ℚ) - c3w_state.last_speak_time < default_config.min_speak_interval) ∧
    is_duplicate default_config c3w_state.recent_comments c3w_input.comment_text ∧
    (decide default_config c3w_state 10 c3w_input).1 =
      { action := Action.SKIP, reason := Reason.DUPLICATE, priority := 0 } := by
  have h1 : ¬ ((10:ℚ) - c3w_state.last_speak_time < default_config.min_speak_interval) := by
    norm_num [c3w_state, default_config]
  have h2 : is_duplicate default_config c3w_state.recent_comments c3w_input.comment_text :=
    dup_hello_ring
  exact ⟨h1, h2, duplicate_gate_strict default_config c3w_state 10 c3w_input h1 h2⟩

/-- Counterexample to C4 as stated: a non-spam comment arriving after more
than max_speak_interval of silence is still skipped when it duplicates a
ring entry, so starvation alone does not force SPEAK. -/
theorem starved_duplicate_not_spoken :
    c4_input.intent ≠ "spam" ∧
    default_config.max_speak_interval < (20:ℚ) - c4_state.last_speak_time ∧
    (decide default_config c4_state 20 c4_input).1.action ≠ Action.SPEAK := by
  have hdup : is_duplicate default_config c4_state.recent_comments c4_input.comment_text :=
    dup_hello_ring
  refine ⟨by decide, by norm_num [c4_state, default_config], ?_⟩
  simp only [decide]
  rw [if_neg (by norm_num [c4_state, default_config]), if_pos hdup]
  exact fun hcon => Action.noConfusion hcon

/-- C4 amended: a non-spam comment that is also not a duplicate of the recent
ring is answered with SPEAK whenever more than max_speak_interval has passed
since the last speak (given the configured minimum does not exceed the
maximum). -/
theorem starvation_boost_speaks (cfg : BrainConfig) (st : BrainState) (now : ℚ)
    (inp : BrainInput)
    (hle : cfg.min_speak_interval ≤ cfg.max_speak_interval)
    (hspam : inp.intent ≠ "spam")
    (hdup : ¬ is_duplicate cfg st.recent_comments inp.comment_text)
    (hstarve : cfg.max_speak_interval < now - st.last_speak_time) :
    (decide cfg st now inp).1.action = Action.SPEAK := by
  have hcd : ¬ (now - st.last_speak_time < cfg.min_speak_interval) := by
    intro h; linarith
  simp only [decide, if_neg hcd, if_neg hdup, if_neg hspam]
  have hboost : boosted_priority cfg (now - st.last_speak_time) inp =
      max (calculate_priority cfg inp) cfg.auto_speak_priority := by
    simp only [boosted_priority]
    rw [if_pos hstarve]
  rw [hboost, if_pos (le_max_right _ _)]
  rfl

/-- Witness for C4 amended: a fresh chitchat comment after 20 seconds of
silence is spoken. -/
theorem starvation_boost_speaks_witness :
    default_config.min_speak_interval ≤ default_config.max_speak_interval ∧
    c4w_input.intent ≠ "spam" ∧
    ¬ is_duplicate default_config init_state.recent_comments c4w_input.comment_text ∧
    default_config.max_speak_interval < (20:ℚ) - init_state.last_speak_time ∧
    (decide default_config init_state 20 c4w_input).1.action = Action.SPEAK := by
  have h1 : default_config.min_speak_interval ≤ default_config.max_speak_interval := by
    norm_num [default_config]
  have h2 : c4w_input.intent ≠ "spam" := by decide
  have h3 : ¬ is_duplicate default_config init_state.recent_comments c4w_input.comment_text := by
    simp [is_duplicate, init_state]
  have h4 : default_config.max_speak_interval < (20:ℚ) - init_state.last_speak_time := by
    norm_num [default_config, init_state]
  exact ⟨h1, h2, h3, h4,
    starvation_boost_speaks default_config init_state 20 c4w_input h1 h2 h3 h4⟩

/-- C7: for nonnegative gift values the computed priority equals the
specification formula clamp(1, 10, floor(base times state multiplier times
viewer multiplier plus bonus)) with bonus = subscriber/follower bonus plus
min(3, floor(gift_value/100)), and the result always lies between 1 and
10. -/
theorem priority_clamp_and_formula (inp : BrainInput) (hg : 0 ≤ inp.gift_value) :
    calculate_priority default_config inp = spec_priority default_config inp ∧
    1 ≤ calculate_priority default_config inp ∧
    calculate_priority default_config inp ≤ 10 := by
  have hb : (1:ℚ) ≤ (intent_priority (py_lower inp.intent) : ℚ) := by
    exact_mod_cast one_le_intent_priority (py_lower inp.intent)
  have hs : (1:ℚ) ≤ state_modifier inp.sale_state (py_lower inp.intent) :=
    one_le_state_modifier _ _
  have hv : (0:ℚ) < viewer_multiplier default_config inp.viewer_count :=
    viewer_multiplier_default_pos _
  have hbn : (0:ℚ) ≤ (brain_bonus inp : ℚ) := by
    exact_mod_cast brain_bonus_nonneg inp hg
  have hq : 0 ≤ (intent_priority (py_lower inp.intent) : ℚ) *
      state_modifier inp.sale_state (py_lower inp.intent) *
      viewer_multiplier default_config inp.viewer_count + (brain_bonus inp : ℚ) := by
    have hprod : 0 ≤ (intent_priority (py_lower inp.intent) : ℚ) *
        state_modifier inp.sale_state (py_lower inp.intent) *
        viewer_multiplier default_config inp.viewer_count :=
      mul_nonneg (mul_nonneg (by linarith) (by linarith)) (le_of_lt hv)
    linarith
  refine ⟨?_, le_max_left _ _, max_le (by norm_num) (min_le_left _ _)⟩
  unfold calculate_priority spec_priority
  rw [pyint_of_nonneg _ hq, brain_bonus_eq_spec inp hg]

/-- Witness for C7: a subscriber purchase-intent comment with a 1000 gift in
the PRICE phase satisfies the formula and the clamp. -/
theorem priority_clamp_and_formula_witness :
    (0:ℚ) ≤ c7_input.gift_value ∧
    (calculate_priority default_config c7_input = spec_priority default_config c7_input ∧
      1 ≤ calculate_priority default_config c7_input ∧
      calculate_priority default_config c7_input ≤ 10) := by
  have hg : (0:ℚ) ≤ c7_input.gift_value := by norm_num [c7_input]
  exact ⟨hg, priority_clamp_and_formula c7_input hg⟩

/-- C9: with a positive window, decide keeps the recent-comment ring at no
more than duplicate_window entries, every state reachable from the initial
state by Brain operations satisfies that bound, and appending to a full ring
evicts exactly the oldest entry. -/
theorem recent_ring_bounded (cfg : BrainConfig) (st : BrainState) (now : ℚ)
    (inp : BrainInput) (t : String) (ops : List BrainOp)
    (hw : 0 < cfg.duplicate_window) :
    (st.recent_comments.length ≤ cfg.duplicate_window →
      (decide cfg st now inp).2.recent_comments.length ≤ cfg.duplicate_window) ∧
    (run_ops cfg init_state ops).recent_comments.length ≤ cfg.duplicate_window ∧
    (st.recent_comments.length = cfg.duplicate_window →
      (track_comment cfg st t).recent_comments =
        st.recent_comments.tail ++ [py_strip (py_lower t)]) :=
  ⟨decide_ring_le cfg st now inp hw,
   run_ops_ring_le_aux cfg ops hw init_state (by simp [init_state]),
   track_comment_evicts cfg st t hw⟩

/-- Witness for C9: from the initial state a decide call leaves at most ten
ring entries under the default configuration. -/
theorem recent_ring_bounded_witness :
    0 < default_config.duplicate_window ∧
    (decide default_config init_state 5 c9_input).2.recent_comments.length ≤
      default_config.duplicate_window := by
  have hw : 0 < default_config.duplicate_window := by norm_num [default_config]
  exact ⟨hw, (recent_ring_bounded default_config init_state 5 c9_input "x" [] hw).1
    (by simp [init_state])⟩

/-- C10: no Brain operation ever appends to the pending queue, so the queue
of every state reachable from the initial state is empty; with a positive
max_queue_size, decide therefore never returns QUEUE, and a comment passing
the gates whose boosted priority reaches high_priority_threshold is answered
with SPEAK. -/
theorem queue_never_used (cfg : BrainConfig) (ops : List BrainOp) (now : ℚ)
    (inp : BrainInput) :
    (run_ops cfg init_state ops).queue = [] ∧
    (0 < cfg.max_queue_size →
      (decide cfg (run_ops cfg init_state ops) now inp).1.action ≠ Action.QUEUE ∧
      (¬ (now - (run_ops cfg init_state ops).last_speak_time < cfg.min_speak_interval) →
        ¬ is_duplicate cfg (run_ops cfg init_state ops).recent_comments inp.comment_text →
        inp.intent ≠ "spam" →
        cfg.high_priority_threshold ≤
          boosted_priority cfg (now - (run_ops cfg init_state ops).last_speak_time) inp →
        (decide cfg (run_ops cfg init_state ops) now inp).1.action = Action.SPEAK)) := by
  have hq : (run_ops cfg init_state ops).queue = [] := run_ops_queue cfg ops init_state
  exact ⟨hq, fun hmax =>
    ⟨decide_no_queue _ _ now inp hq hmax,
     fun hcd hdup hspam hpri =>
       decide_speaks_of_high _ _ now inp hq hmax hcd hdup hspam hpri⟩⟩

/-- Witness for C10: from the initial state, a price question at time 10 has
boosted priority 9 at least the threshold 7 and is spoken, and the queue is
empty. -/
theorem queue_never_used_witness :
    0 < default_config.max_queue_size ∧
    ¬ ((10:ℚ) - (run_ops default_config init_state []).last_speak_time <
        default_config.min_speak_interval) ∧
    ¬ is_duplicate default_config
      (run_ops default_config init_state []).recent_comments c10_input.comment_text ∧
    c10_input.intent ≠ "spam" ∧
    default_config.high_priority_threshold ≤ boosted_priority default_config
      ((10:ℚ) - (run_ops default_config init_state []).last_speak_time) c10_input ∧
    (decide default_config (run_ops default_config init_state []) 10
      c10_input).1.action = Action.SPEAK := by
  have hmax : 0 < default_config.max_queue_size := by norm_num [default_config]
  have hcd : ¬ ((10:ℚ) - (run_ops default_config init_state []).last_speak_time <
      default_config.min_speak_interval) := by
    norm_num [run_ops, init_state, default_config]
  have hdup : ¬ is_duplicate default_config
      (run_ops default_config init_state []).recent_comments c10_input.comment_text := by
    simp [is_duplicate, run_ops, init_state]
  have hspam : c10_input.intent ≠ "spam" := by decide
  have hpri : default_config.high_priority_threshold ≤ boosted_priority default_config
      ((10:ℚ) - (run_ops default_config init_state []).last_speak_time) c10_input := by
    have h1 : py_lower "price_question" = "price_question" := by decide
    have h2 : brain_bonus c10_input = 0 := by norm_num [brain_bonus, c10_input]
    have hip : intent_priority "price_question" = 9 := by decide
    have hsm : state_modifier "IDLE" "price_question" = 1.0 := by
      unfold state_modifier
      rw [if_pos rfl, if_neg (by decide), if_neg (by decide)]
    have hvm : viewer_multiplier default_config 100 = 1.0 := by
      unfold viewer_multiplier
      rw [if_neg (by decide), if_neg (by decide)]
    have hp : calculate_priority default_config c10_input = 9 := by
      unfold calculate_priority
      rw [show c10_input.intent = "price_question" from rfl,
        show c10_input.sale_state = "IDLE" from rfl,
        show c10_input.viewer_count = (100:ℤ) from rfl, h1, h2, hip, hsm, hvm,
        pyint_of_nonneg _ (by norm_num)]
      norm_num
    simp only [boosted_priority, hp]
    rw [if_neg (by norm_num [run_ops, init_state, default_config])]
    norm_num [default_config]
  exact ⟨hmax, hcd, hdup, hspam, hpri,
    ((queue_never_used default_config [] 10 c10_input).2 hmax).2 hcd hdup hspam hpri⟩

end LiveBrain

namespace SaleFlow

theorem transition_executes (sm : SMState) (now : ℚ) (trigger : String) (force : Bool)
    (r : TransitionRule) (hf : find_rule sm.current_state trigger force = some r)
    (hd : ¬ (force = false ∧ state_duration sm now < (state_config sm).min_duration)) :
    transition sm now trigger force = (true, execute_transition sm now r.to_state) := by
  simp only [transition, hf]
  rw [if_neg hd]

theorem transition_refused_of_min (sm : SMState) (now : ℚ) (trigger : String)
    (r : TransitionRule) (hf : find_rule sm.current_state trigger false = some r)
    (hlt : state_duration sm now < (state_config sm).min_duration) :
    transition sm now trigger false = (false, sm) := by
  simp only [transition, hf]
  simp [hlt]

theorem check_timeout_fires (sm : SMState) (now : ℚ) (r : TransitionRule)
    (hf : find_rule sm.current_state "timeout" false = some r)
    (hmin : (state_config sm).min_duration ≤ (state_config sm).max_duration)
    (hdwell : (state_config sm).max_duration ≤ state_duration sm now) :
    check_timeout sm now = (true, execute_transition sm now r.to_state) := by
  have hd : ¬ (false = false ∧ state_duration sm now < (state_config sm).min_duration) := by
    rintro ⟨-, hlt⟩
    linarith
  simp only [check_timeout]
  rw [if_pos hdwell]
  exact transition_executes sm now "timeout" false r hf hd

/-- C5 amended: in each of the six main phases (IDLE, WARM_UP, INTEREST,
PRICE, CTA, COOLDOWN), once the dwell reaches the max_dwell of the phase,
check_timeout executes a transition and returns true.  The interrupt phases
HANDLING_QUESTION and CRISIS have no timeout rule and are excluded. -/
theorem check_timeout_main_phases (sm : SMState) (now : ℚ)
    (hphase : sm.current_state = SaleState.IDLE ∨ sm.current_state = SaleState.WARM_UP ∨
      sm.current_state = SaleState.INTEREST ∨ sm.current_state = SaleState.PRICE ∨
      sm.current_state = SaleState.CTA ∨ sm.current_state = SaleState.COOLDOWN)
    (hdwell : (state_config sm).max_duration ≤ state_duration sm now) :
    (check_timeout sm now).1 = true ∧
    (check_timeout sm now).2.transition_count = sm.transition_count + 1 := by
  have key : ∃ r : TransitionRule, find_rule sm.current_state "timeout" false = some r ∧
      (state_config sm).min_duration ≤ (state_config sm).max_duration := by
    rcases hphase with h | h | h | h | h | h
    · refine ⟨{ from_state := SaleState.IDLE, to_state := SaleState.WARM_UP,
                 trigger := "timeout" }, by rw [h]; decide, ?_⟩
      simp only [state_config, h]
      norm_num [STATE_CONFIGS]
    · refine ⟨{ from_state := SaleState.WARM_UP, to_state := SaleState.INTEREST,
                 trigger := "timeout" }, by rw [h]; decide, ?_⟩
      simp only [state_config, h]
      norm_num [STATE_CONFIGS]
    · refine ⟨{ from_state := SaleState.INTEREST, to_state := SaleState.PRICE,
                 trigger := "timeout" }, by rw [h]; decide, ?_⟩
      simp only [state_config, h]
      norm_num [STATE_CONFIGS]
    · refine ⟨{ from_state := SaleState.PRICE, to_state := SaleState.CTA,
                 trigger := "timeout" }, by rw [h]; decide, ?_⟩
      simp only [state_config, h]
      norm_num [STATE_CONFIGS]
    · refine ⟨{ from_state := SaleState.CTA, to_state := SaleState.COOLDOWN,
                 trigger := "timeout" }, by rw [h]; decide, ?_⟩
      simp only [state_config, h]
      norm_num [STATE_CONFIGS]
    · refine ⟨{ from_state := SaleState.COOLDOWN, to_state := SaleState.IDLE,
                 trigger := "timeout" }, by rw [h]; decide, ?_⟩
      simp only [state_config, h]
      norm_num [STATE_CONFIGS]
  obtain ⟨r, hf, hmin⟩ := key
  rw [check_timeout_fires sm now r hf hmin hdwell]
  exact ⟨rfl, rfl⟩

/-- Witness for C5 amended: an IDLE machine sixty seconds in times out and
transitions. -/
theorem check_timeout_main_phases_witness :
    (c5w_sm.current_state = SaleState.IDLE ∨ c5w_sm.current_state = SaleState.WARM_UP ∨
      c5w_sm.current_state = SaleState.INTEREST ∨ c5w_sm.current_state = SaleState.PRICE ∨
      c5w_sm.current_state = SaleState.CTA ∨ c5w_sm.current_state = SaleState.COOLDOWN) ∧
    (state_config c5w_sm).max_duration ≤ state_duration c5w_sm 60 ∧
    (check_timeout c5w_sm 60).1 = true ∧
    (check_timeout c5w_sm 60).2.transition_count = c5w_sm.transition_count + 1 := by
  have hphase : c5w_sm.current_state = SaleState.IDLE ∨
      c5w_sm.current_state = SaleState.WARM_UP ∨
      c5w_sm.current_state = SaleState.INTEREST ∨ c5w_sm.current_state = SaleState.PRICE ∨
      c5w_sm.current_state = SaleState.CTA ∨ c5w_sm.current_state = SaleState.COOLDOWN :=
    Or.inl rfl
  have hdwell : (state_config c5w_sm).max_duration ≤ state_duration c5w_sm 60 := by
    norm_num [state_config, state_duration, c5w_sm, STATE_CONFIGS]
  have h := check_timeout_main_phases c5w_sm 60 hphase hdwell
  exact ⟨hphase, hdwell, h.1, h.2⟩

/-- Counterexample to C5 as stated: the HANDLING_QUESTION phase has reached
its max_dwell of 60, yet check_timeout executes no transition and returns
false, because no rule leaves HANDLING_QUESTION on the timeout trigger. -/
theorem handling_question_timeout_stuck :
    (state_config c5_stuck).max_duration ≤ state_duration c5_stuck 60 ∧
    check_timeout c5_stuck 60 = (false, c5_stuck) := by
  constructor
  · norm_num [state_config, state_duration, c5_stuck, STATE_CONFIGS]
  · simp only [check_timeout]
    rw [if_pos (by norm_num [state_config, state_duration, c5_stuck, STATE_CONFIGS])]
    simp only [transition,
      show find_rule c5_stuck.current_state "timeout" false = none from by decide]

/-- C6 amended: in scenario S4 the greeting at t 0 moves IDLE to WARM_UP and
the product question at t 35 moves WARM_UP to INTEREST, but the price
question at t 50 is refused because the INTEREST dwell is 15, below the
min_dwell 45 of INTEREST, so the phase remains INTEREST instead of reaching
PRICE. -/
theorem s4_amended_flow :
    auto_transition s4_start 0 "greeting" = s4_warm ∧
    auto_transition s4_warm 35 "product_question" = s4_interest ∧
    transition s4_interest 50 "price_question" false = (false, s4_interest) ∧
    state_duration s4_interest 50 < (state_config s4_interest).min_duration ∧
    auto_transition s4_interest 50 "price_question" = s4_interest := by
  have a1 : auto_transition s4_start 0 "greeting" = s4_warm := by
    simp only [auto_transition,
      show intent_triggers "greeting" = some "greeting_received" from by decide]
    rw [transition_executes s4_start 0 "greeting_received" false
      { from_state := SaleState.IDLE, to_state := SaleState.WARM_UP,
        trigger := "greeting_received" } (by decide) ?_]
    · rfl
    rintro ⟨-, hlt⟩
    norm_num [state_duration, state_config, STATE_CONFIGS, s4_start] at hlt
  have a2 : auto_transition s4_warm 35 "product_question" = s4_interest := by
    simp only [auto_transition,
      show intent_triggers "product_question" = some "product_mention" from by decide]
    rw [transition_executes s4_warm 35 "product_mention" false
      { from_state := SaleState.WARM_UP, to_state := SaleState.INTEREST,
        trigger := "product_mention" } (by decide) ?_]
    · rfl
    rintro ⟨-, hlt⟩
    norm_num [state_duration, state_config, STATE_CONFIGS, s4_warm] at hlt
  have hlt : state_duration s4_interest 50 < (state_config s4_interest).min_duration := by
    norm_num [state_duration, state_config, STATE_CONFIGS, s4_interest]
  have e3 : transition s4_interest 50 "price_question" false = (false, s4_interest) :=
    transition_refused_of_min s4_interest 50 "price_question"
      { from_state := SaleState.INTEREST, to_state := SaleState.PRICE,
        trigger := "price_question" } (by decide) hlt
  have a3 : auto_transition s4_interest 50 "price_question" = s4_interest := by
    simp only [auto_transition,
      show intent_triggers "price_question" = some "price_question" from by decide]
    rw [e3]
  exact ⟨a1, a2, e3, hlt, a3⟩

/-- Counterexample to C6 as stated: running the S4 trigger sequence, the
phase after the price question at t 50 is not PRICE (it is still
INTEREST). -/
theorem s4_price_transition_refused :
    (auto_transition s4_start 0 "greeting").current_state = SaleState.WARM_UP ∧
    (auto_transition (auto_transition s4_start 0 "greeting") 35
      "product_question").current_state = SaleState.INTEREST ∧
    (auto_transition (auto_transition (auto_transition s4_start 0 "greeting") 35
      "product_question") 50 "price_question").current_state ≠ SaleState.PRICE := by
  have a1 : auto_transition s4_start 0 "greeting" = s4_warm := by
    simp only [auto_transition,
      show intent_triggers "greeting" = some "greeting_received" from by decide]
    rw [transition_executes s4_start 0 "greeting_received" false
      { from_state := SaleState.IDLE, to_state := SaleState.WARM_UP,
        trigger := "greeting_received" } (by decide) ?_]
    · rfl
    rintro ⟨-, hlt⟩
    norm_num [state_duration, state_config, STATE_CONFIGS, s4_start] at hlt
  have a2 : auto_transition s4_warm 35 "product_question" = s4_interest := by
    simp only [auto_transition,
      show intent_triggers "product_question" = some "product_mention" from by decide]
    rw [transition_executes s4_warm 35 "product_mention" false
      { from_state := SaleState.WARM_UP, to_state := SaleState.INTEREST,
        trigger := "product_mention" } (by decide) ?_]
    · rfl
    rintro ⟨-, hlt⟩
    norm_num [state_duration, state_config, STATE_CONFIGS, s4_warm] at hlt
  have a3 : auto_transition s4_interest 50 "price_question" = s4_interest := by
    simp only [auto_transition,
      show intent_triggers "price_question" = some "price_question" from by decide]
    rw [transition_refused_of_min s4_interest 50 "price_question"
      { from_state := SaleState.INTEREST, to_state := SaleState.PRICE,
        trigger := "price_question" } (by decide)
      (by norm_num [state_duration, state_config, STATE_CONFIGS, s4_interest])]
  rw [a1, a2, a3]
  refine ⟨rfl, rfl, by decide⟩

end SaleFlow

namespace Metrics

/-- C8: log_response increments the responded_comments counter on every call,
so marking the same comment event responded twice counts it twice (the spec
requires the counter to grow at most once per event). -/
theorem log_response_double_counts :
    ((log_response { timestamp := 0, username := "eve", text := "hi", intent := "greeting" }
        { total_comments := 1 } 1).2).responded_comments = 1 ∧
    ((log_response { timestamp := 0, username := "eve", text := "hi", intent := "greeting" }
        { total_comments := 1 } 1).1).was_responded = true ∧
    ((log_response
        (log_response { timestamp := 0, username := "eve", text := "hi", intent := "greeting" }
          { total_comments := 1 } 1).1
        (log_response { timestamp := 0, username := "eve", text := "hi", intent := "greeting" }
          { total_comments := 1 } 1).2 2).2).responded_comments = 2 :=
  ⟨rfl, rfl, rfl⟩

end Metrics
